import Mathlib

/-!
Verification of the htmltocssimage-API forwarding proxy.

Shallow embedding of the two Python sources `src/app.py` and
`src/edited-app.py`.  JSON values are modelled by the inductive type
`JVal`; Python dicts produced by JSON parsing are association lists
`List (String × JVal)` with unique keys (lookup takes the first match,
as `dict.get` does).  Fallible Python operations (subscripting,
iteration over a non-iterable) return `Except PyErr`.
-/

set_option autoImplicit false

/-- JSON values, as produced by Python's `json` module. -/
inductive JVal where
  | str (s : String)
  | num (n : Int)
  | bool (b : Bool)
  | null
  | arr (xs : List JVal)
  | obj (fields : List (String × JVal))
deriving Repr

/-- Python exceptions that the embedded code can raise. -/
inductive PyErr where
  | typeError
  | keyError (k : String)
  | indexError
deriving Repr, DecidableEq

/-- Python truthiness of a JSON value (`bool(v)`). -/
def truthy : JVal → Bool
  | .str s => !s.isEmpty
  | .num n => n != 0
  | .bool b => b
  | .null => false
  | .arr xs => !xs.isEmpty
  | .obj fs => !fs.isEmpty

/-- Lookup in a parsed-JSON dict: `d.get(k)`, `none` when the key is absent. -/
def pyGet (d : List (String × JVal)) (k : String) : Option JVal :=
  (d.find? (fun p => p.1 == k)).map Prod.snd

/-- Lookup with a default: `d.get(k, dflt)`. -/
def pyGetD (d : List (String × JVal)) (k : String) (dflt : JVal) : JVal :=
  (pyGet d k).getD dflt

/-- Python's `a or b` on optional JSON values (`None` is falsy):
returns `a` when `a` is present and truthy, otherwise `b`. -/
def pyOr (a b : Option JVal) : Option JVal :=
  match a with
  | some v => if truthy v then some v else b
  | none => b

/-- Truthiness of an optional value (`None` is falsy). -/
def optTruthy : Option JVal → Bool
  | some v => truthy v
  | none => false

mutual
/-- Python `repr` of a JSON value (best effort: string escaping inside
`repr` is not reproduced; no claim depends on the text of composite
values).  Needed because f-string interpolation calls `str`, which on
lists and dicts is `repr`. -/
def pyRepr : JVal → String
  | .str s => "\x27" ++ s ++ "\x27"
  | .num n => toString n
  | .bool true => "True"
  | .bool false => "False"
  | .null => "None"
  | .arr xs => "[" ++ pyReprList xs ++ "]"
  | .obj fs => "\x7b" ++ pyReprFields fs ++ "\x7d"

/-- Comma-separated `repr` of the elements of a list. -/
def pyReprList : List JVal → String
  | [] => ""
  | [x] => pyRepr x
  | x :: y :: xs => pyRepr x ++ ", " ++ pyReprList (y :: xs)

/-- Comma-separated `repr` of the fields of a dict. -/
def pyReprFields : List (String × JVal) → String
  | [] => ""
  | [(k, v)] => "\x27" ++ k ++ "\x27: " ++ pyRepr v
  | (k, v) :: y :: xs => "\x27" ++ k ++ "\x27: " ++ pyRepr v ++ ", " ++ pyReprFields (y :: xs)
end

/-- Python `str` of a JSON value, as used by f-string interpolation. -/
def pyStr : JVal → String
  | .str s => s
  | v => pyRepr v

/-- Python iteration `for c in v` on a JSON value: lists yield their
elements, strings yield their one-character substrings, dicts yield
their keys, and numbers, booleans and `None` raise `TypeError`. -/
def pyIter : JVal → Except PyErr (List JVal)
  | .arr xs => .ok xs
  | .str s => .ok (s.data.map (fun c => JVal.str (String.mk [c])))
  | .obj fs => .ok (fs.map (fun p => JVal.str p.1))
  | .num _ => .error .typeError
  | .bool _ => .error .typeError
  | .null => .error .typeError

/-- Python subscripting `v[k]` with a string key: `KeyError` when the
key is missing from a dict, `TypeError` when `v` is not a dict. -/
def pySubscript (v : JVal) (k : String) : Except PyErr JVal :=
  match v with
  | .obj fs =>
    match pyGet fs k with
    | some x => .ok x
    | none => .error (.keyError k)
  | _ => .error .typeError

/-- Python whitespace as used by `str.split()` and `str.strip()`. -/
def isPySpace (c : Char) : Bool :=
  c == ' ' || c == '\t' || c == '\n' || c == '\r' || c == '\x0b' || c == '\x0c'

/-- Python `s.lower()` (ASCII case folding, which is all the sources use). -/
def pyLower (s : String) : String :=
  String.mk (s.data.map Char.toLower)

/-- Python `s.startswith(pre)`. -/
def pyStartsWith (s pre : String) : Bool :=
  s.data.take pre.data.length == pre.data

/-- Python `s.strip()`: removes leading and trailing whitespace. -/
def pyStrip (s : String) : String :=
  String.mk (((s.data.dropWhile isPySpace).reverse.dropWhile isPySpace).reverse)

/-- Python `s.split(None, 1)`: drop leading whitespace, take the first
whitespace-free word, and return the remainder (with its own leading
whitespace dropped) as the second element when it is nonempty. -/
def pySplitNone1 (s : String) : List String :=
  let cs := s.data.dropWhile isPySpace
  let w1 := cs.takeWhile (fun c => !isPySpace c)
  let rest := (cs.dropWhile (fun c => !isPySpace c)).dropWhile isPySpace
  if w1.isEmpty then []
  else if rest.isEmpty then [String.mk w1]
  else [String.mk w1, String.mk rest]

/-- Python `s[:n]` on a string. -/
def pyTake (s : String) (n : Nat) : String :=
  String.mk (s.data.take n)

/-- Python dict update of a single key: replace in place when the key is
present (dicts preserve insertion order), append otherwise. -/
def pyDictSet (d : List (String × JVal)) (k : String) (v : JVal) : List (String × JVal) :=
  if (d.find? (fun p => p.1 == k)).isSome then
    d.map (fun p => if p.1 == k then (k, v) else p)
  else
    d ++ [(k, v)]

/-- Python `d.update(u)`. -/
def pyDictUpdate (d u : List (String × JVal)) : List (String × JVal) :=
  u.foldl (fun acc p => pyDictSet acc p.1 p.2) d

/-- Containment of one character list in another, as a contiguous run
(Python's `in` operator on strings). -/
def listInfixOf : List Char → List Char → Bool
  | needle, [] => needle.isEmpty
  | needle, c :: rest => needle.isPrefixOf (c :: rest) || listInfixOf needle rest

/-- Python `needle in hay` on strings. -/
def strContains (hay needle : String) : Bool :=
  listInfixOf needle.data hay.data

/-! ## Embedding of `src/app.py` -/

/-- Configured shared secret (`API_KEY`, default value). -/
def API_KEY : String := "OTTONRENT"

/-- Default payload template for the htmlcsstoimage API
(`DEFAULT_PAYLOAD` in `app.py`). -/
def DEFAULT_PAYLOAD : List (String × JVal) :=
  [("html", .null),
   ("selector", .str "#qr-container"),
   ("full_screen", .bool false),
   ("render_when_ready", .bool false),
   ("color_scheme", .str "light"),
   ("timezone", .str "UTC"),
   ("block_consent_banners", .bool false)]

/-- Heuristic Sec-CH-UA derivation from a user-agent string
(`generate_ch_ua_from_ua` in `app.py`); returns (brand, mobile, platform). -/
def generate_ch_ua_from_ua (ua : String) : String × String × String :=
  if strContains ua "Chrome" && !strContains ua "Chromium" then
    let brand := "\"Chromium\";v=\"121\", \"Google Chrome\";v=\"121\""
    let platform :=
      if strContains ua "Windows" then "\"Windows\""
      else if strContains ua "Macintosh" then "\"macOS\""
      else "\"Android\""
    (brand, "?0", platform)
  else if strContains ua "Safari" && !strContains ua "Chrome" then
    let brand := "\"Safari\";v=\"17\", \"Not A Brand\";v=\"99\""
    let platform := if strContains ua "Macintosh" then "\"macOS\"" else "\"iOS\""
    let mobile := if strContains ua "iPhone" then "?1" else "?0"
    (brand, mobile, platform)
  else
    ("\"Not A Brand\";v=\"99\"", "?0", "\"Linux\"")

/-- First octets rejected by `random_ipv4_public` (`app.py` line 81). -/
def excludedFirstOctets : List Nat := [10, 127, 169, 172, 192]

/-- Retry loop of `random_ipv4_public`, modelled over the stream of
values produced by `random.randint(1, 254)`, consumed four at a time;
`none` when the finite stream is exhausted before an address is
accepted.  The source recomputes the first octet as
`int(ip.split(".")[0])`; since a decimal numeral contains no dot this
equals the first drawn value, and the embedding tests that value
directly. -/
def random_ipv4_octets : List Nat → Option (Nat × Nat × Nat × Nat)
  | a :: b :: c :: d :: rest =>
    if a ∈ excludedFirstOctets then random_ipv4_octets rest
    else some (a, b, c, d)
  | _ => none

/-- Dotted-quad assembly `".".join(str(random.randint(1, 254)) for _ in range(4))`. -/
def ipJoin (a b c d : Nat) : String :=
  String.intercalate "." [toString a, toString b, toString c, toString d]

/-- Generate a plausible public IPv4 for X-Forwarded-For
(`random_ipv4_public` in `app.py`), over a stream of random draws. -/
def random_ipv4_public (draws : List Nat) : Option String :=
  (random_ipv4_octets draws).map (fun q => ipJoin q.1 q.2.1 q.2.2.1 q.2.2.2)

/-- Token extraction of `fetch_status` in `app.py` (lines 119-121):
`data.get("requestVerificationToken") or data.get("__RequestVerificationToken")
or data.get("RequestVerificationToken")`. -/
def token_app (data : List (String × JVal)) : Option JVal :=
  pyOr (pyOr (pyGet data "requestVerificationToken")
             (pyGet data "__RequestVerificationToken"))
       (pyGet data "RequestVerificationToken")

/-- Cookie-string assembly of `fetch_status` in `app.py` (line 117):
`"; ".join([f"\x7bc['name']\x7d=\x7bc['value']\x7d" for c in cookies]) if cookies else ""`. -/
def app_cookie_str (data : List (String × JVal)) : Except PyErr String :=
  let cookies := pyGetD data "cookies" (JVal.arr [])
  if truthy cookies then do
    let items ← pyIter cookies
    let pairs ← items.mapM (fun c => do
      let n ← pySubscript c "name"
      let v ← pySubscript c "value"
      pure (pyStr n ++ "=" ++ pyStr v))
    pure (String.intercalate "; " pairs)
  else pure ""

/-- Parsing step of `fetch_status` in `app.py`, applied to the decoded
status JSON body: returns the cookie header string and the optional
verification token. -/
def fetch_status (data : List (String × JVal)) : Except PyErr (String × Option JVal) := do
  let cs ← app_cookie_str data
  pure (cs, token_app data)

/-- Optional keys copied from the caller body by `convert_endpoint`
(`app.py` line 207). -/
def appExtraKeys : List String :=
  ["selector", "full_screen", "render_when_ready", "color_scheme", "timezone",
   "block_consent_banners"]

/-- Extras dict built by `convert_endpoint` (`app.py` lines 206-209):
copy-if-present over `appExtraKeys`. -/
def convert_extras (body : List (String × JVal)) : List (String × JVal) :=
  appExtraKeys.filterMap (fun k => (pyGet body k).map (fun v => (k, v)))

/-- Payload assembly of `call_image_api` (`app.py` lines 147-150):
`payload = DEFAULT_PAYLOAD.copy(); payload["html"] = html;
if extra_payload: payload.update(extra_payload)`. -/
def call_image_api_payload (html : JVal) (extra_payload : Option (List (String × JVal))) :
    List (String × JVal) :=
  let payload := pyDictSet DEFAULT_PAYLOAD "html" html
  match extra_payload with
  | none => payload
  | some e => if e.isEmpty then payload else pyDictUpdate payload e

/-- Upstream render response as observed by `call_image_api`:
status code, Content-Type header (defaulted to `""`), body text, and
the outcome of `resp.json()` (`none` when the body is not JSON). -/
structure AppUpstream where
  statusCode : Nat
  contentType : String
  text : String
  jsonBody : Option JVal

/-- Result of `call_image_api` after the POST: a returned
(content, content type) pair, a raised `requests.HTTPError` from
`raise_for_status()`, or a raised `RuntimeError`. -/
inductive CallImageResult where
  | ok (content : String) (contentType : String)
  | httpError (status : Nat)
  | runtimeError (msg : String)

/-- Response handling of `call_image_api` (`app.py` lines 152-164). -/
def call_image_api_response (resp : AppUpstream) : CallImageResult :=
  if 400 ≤ resp.statusCode ∧ resp.statusCode < 600 then .httpError resp.statusCode
  else if pyStartsWith resp.contentType "image/" then .ok resp.text resp.contentType
  else
    match resp.jsonBody with
    | some j => .runtimeError ("Image service returned JSON error: " ++ pyStr j)
    | none => .runtimeError ("Non-image response from image service. Status: "
        ++ toString resp.statusCode ++ ", Body: " ++ pyTake resp.text 1000)

/-- Status code and body marker the caller of `/convert` receives in
`app.py` (lines 211-225), as a function of the upstream render
response: success is served with `send_file` (HTTP 200), an
`HTTPError` becomes a 502 JSON error, any other exception a 500. -/
def convert_outcome (resp : AppUpstream) : Nat × String :=
  match call_image_api_response resp with
  | .ok content _ => (200, content)
  | .httpError _ => (502, "Remote service HTTP error")
  | .runtimeError _ => (500, "Failed to generate image")

/-- Outcome of the API-key check. -/
inductive AuthResult where
  | accepted
  | rejected401
deriving Repr, DecidableEq

/-- API-key check of `app.py` (`_require_api_key`, lines 168-175):
`X-API-KEY` is used unless the Authorization header starts
(case-insensitively) with `"bearer "`, in which case the bearer value
replaces it; `abort(401)` when the resulting key is empty or wrong.
`auth.split(None, 1)[1]` raises `IndexError` when nothing follows the
bearer prefix. -/
def require_api_key (apiKey : String) (xApiKey authorization : Option String) :
    Except PyErr AuthResult := do
  let auth := authorization.getD ""
  let header_key ←
    if pyStartsWith (pyLower auth) "bearer " then
      match pySplitNone1 auth with
      | _ :: second :: _ => pure (pyStrip second)
      | _ => Except.error PyErr.indexError
    else
      pure ((xApiKey.getD ""))
  if header_key = "" ∨ header_key ≠ apiKey then pure AuthResult.rejected401
  else pure AuthResult.accepted

/-! ## Embedding of `src/edited-app.py` -/

/-- Hard-coded API key of `edited-app.py`. -/
def INTERNAL_API_KEY : String := "OTTONRENT"

/-- Token extraction of `render_html` in `edited-app.py` (lines 54-60):
five `or`-chained `status_json.get(...)` calls. -/
def token_edited (status_json : List (String × JVal)) : Option JVal :=
  pyOr (pyOr (pyOr (pyOr (pyGet status_json "requestVerificationToken")
                         (pyGet status_json "requestverificationtoken"))
                   (pyGet status_json "RequestVerificationToken"))
             (pyGet status_json "__RequestVerificationToken"))
       (pyGet status_json "token")

/-- Guarded `name=value` rendering of one element of the `cookies`
array (`edited-app.py` lines 48-50): an entry contributes only when it
is a dict containing both a `name` and a `value` key. -/
def cookieNameValue : JVal → Option String
  | .obj fs =>
    match pyGet fs "name", pyGet fs "value" with
    | some n, some v => some (pyStr n ++ "=" ++ pyStr v)
    | _, _ => none
  | _ => none

/-- Join of the guarded cookie pairs drawn from an iterated value. -/
def assembleCookies (items : List JVal) : String :=
  String.intercalate "; " (items.filterMap cookieNameValue)

/-- Cookie-string assembly of `render_html` in `edited-app.py`
(lines 46-51): `cookies_arr = status_json.get("cookies", []) or []`,
then a guarded generator joined with `"; "`.  Iterating a truthy
non-iterable `cookies` value raises `TypeError`. -/
def build_cookie_str (status_json : List (String × JVal)) : Except PyErr String := do
  let got := pyGetD status_json "cookies" (JVal.arr [])
  let cookies_arr := if truthy got then got else JVal.arr []
  let items ← pyIter cookies_arr
  pure (assembleCookies items)

/-- Caller-body keys copied (with `""` default) into the forward
payload by `render_html` (`edited-app.py` lines 65-77), `html` apart. -/
def editedPayloadKeys : List String :=
  ["html", "css", "url", "selector", "console_mode", "ms_delay", "render_when_ready",
   "viewport_width", "viewport_height", "google_fonts", "device_scale"]

/-- Forward payload built by `render_html` (`edited-app.py` lines 65-77). -/
def forward_payload (data : List (String × JVal)) (html : JVal) : List (String × JVal) :=
  [("html", html),
   ("css", pyGetD data "css" (.str "")),
   ("url", pyGetD data "url" (.str "")),
   ("selector", pyGetD data "selector" (.str "")),
   ("console_mode", pyGetD data "console_mode" (.str "")),
   ("ms_delay", pyGetD data "ms_delay" (.str "")),
   ("render_when_ready", pyGetD data "render_when_ready" (.str "")),
   ("viewport_width", pyGetD data "viewport_width" (.str "")),
   ("viewport_height", pyGetD data "viewport_height" (.str "")),
   ("google_fonts", pyGetD data "google_fonts" (.str "")),
   ("device_scale", pyGetD data "device_scale" (.str ""))]

/-- Outcome of the GET to the status endpoint, as observed by
`render_html`: either some exception was raised (transport failure,
`raise_for_status`, or JSON decoding), or a decoded JSON object. -/
inductive FetchOutcome where
  | failure
  | success (status_json : List (String × JVal))

/-- Progress of one `render_html` invocation up to the upstream POST:
either the handler aborted with the given HTTP status before issuing
the render POST, or it issued the POST with the given payload, cookie
string and token. -/
inductive HandlerStep where
  | aborted (code : Nat)
  | posted (payload : List (String × JVal)) (cookieStr : String) (token : JVal)

/-- Pre-POST control flow of `render_html` in `edited-app.py`
(lines 24-99): API-key check (401), `html` presence check (400),
status fetch (502 on failure), cookie and token extraction, the strict
credential check (502 when the token is falsy or the cookie string
empty), then the upstream POST. -/
def render_html (xApiKey : String) (data : List (String × JVal)) (fetch : FetchOutcome) :
    Except PyErr HandlerStep := do
  if xApiKey ≠ INTERNAL_API_KEY then pure (HandlerStep.aborted 401)
  else
    match pyGet data "html" with
    | none => pure (HandlerStep.aborted 400)
    | some html =>
      if ¬truthy html then pure (HandlerStep.aborted 400)
      else
        match fetch with
        | .failure => pure (HandlerStep.aborted 502)
        | .success status_json => do
          let cookie_str ← build_cookie_str status_json
          let token := token_edited status_json
          if ¬optTruthy token ∨ cookie_str = "" then pure (HandlerStep.aborted 502)
          else
            match token with
            | some t => pure (HandlerStep.posted (forward_payload data html) cookie_str t)
            | none => pure (HandlerStep.aborted 502)

/-- Relayed header set of `render_html` (`edited-app.py` lines 104-107):
keep every upstream header whose lower-cased name is neither
`content-encoding` nor `transfer-encoding`. -/
def relay_headers (hs : List (String × String)) : List (String × String) :=
  hs.filter (fun p => !(pyLower p.1 == "content-encoding" || pyLower p.1 == "transfer-encoding"))

/-- Upstream render response as observed by the relay step of
`render_html`: status code, headers, body. -/
structure Upstream where
  status : Nat
  headers : List (String × String)
  body : List Char

/-- Re-chunking performed by `upstream.iter_content(chunk_size=4096)`. -/
def chunkStream : List Char → List (List Char)
  | [] => []
  | a :: rest => ((a :: rest).take 4096) :: chunkStream ((a :: rest).drop 4096)
termination_by l => l.length
decreasing_by simp [List.length_drop]; omega

/-- Response relay of `render_html` (`edited-app.py` lines 101-108):
upstream status code verbatim, filtered headers, body streamed in
4096-byte chunks. -/
def relay_response (u : Upstream) : Nat × List (String × String) × List (List Char) :=
  (u.status, relay_headers u.headers, chunkStream u.body)

/-! ## Definitions taken from the specification's words (for comparison) -/

/-- Allow-list of caller-suppliable payload keys as the specification
states it (union over both variants). -/
def specAllowList : List String :=
  ["selector", "full_screen", "render_when_ready", "color_scheme", "timezone",
   "block_consent_banners", "viewport_width", "viewport_height", "device_scale",
   "css", "url", "console_mode", "ms_delay", "google_fonts"]

/-- Hop-by-hop header set as the specification states it. -/
def specHopByHop : List String :=
  ["connection", "keep-alive", "proxy-authenticate", "proxy-authorization", "te",
   "trailers", "transfer-encoding", "upgrade", "content-encoding"]

/-- Ordered token-key fallback list as the specification states it. -/
def specTokenKeys : List String :=
  ["requestVerificationToken", "__RequestVerificationToken", "RequestVerificationToken",
   "request_verification_token", "token"]

/-- Modelled from the spec: token extraction as the specification
describes it — try `specTokenKeys` in order, then, as a last resort,
any key whose name contains "token" or "verification"
case-insensitively.  Used only to compare against the code's
extraction. -/
def specTokenExtract (data : List (String × JVal)) : Option JVal :=
  match specTokenKeys.findSome? (fun k => pyGet data k) with
  | some v => some v
  | none =>
    (data.find? (fun p =>
      strContains (pyLower p.1) "token" || strContains (pyLower p.1) "verification")).map
      Prod.snd

/-! ## Derived definitions used by the theorems -/

/-- Ordered `or`-fallback over a key list: the first present-and-truthy
value, with the last key's lookup returned as-is (Python `or` chain). -/
def orChain (data : List (String × JVal)) : List String → Option JVal
  | [] => none
  | [k] => pyGet data k
  | k :: k2 :: ks =>
    match pyGet data k with
    | some v => if truthy v then some v else orChain data (k2 :: ks)
    | none => orChain data (k2 :: ks)

/-- Token keys `app.py` actually tries, in source order. -/
def appTokenKeys : List String :=
  ["requestVerificationToken", "__RequestVerificationToken", "RequestVerificationToken"]

/-- Token keys `edited-app.py` actually tries, in source order. -/
def editedTokenKeys : List String :=
  ["requestVerificationToken", "requestverificationtoken", "RequestVerificationToken",
   "__RequestVerificationToken", "token"]

/-- Payload forwarded by `app.py` for an accepted `/convert` request
with the given caller body: `convert_endpoint` extracts the extras and
`call_image_api` merges them into the template. -/
def convertPayload (body : List (String × JVal)) (html : JVal) : List (String × JVal) :=
  call_image_api_payload html (some (convert_extras body))

/-- Well-formedness of the `cookies` field of a status body, as the
status-endpoint interface documents it: absent, or an array of objects
each carrying a `name` and a `value` key. -/
def WellFormedCookiesField (o : Option JVal) : Prop :=
  o = none ∨ ∃ xs, o = some (JVal.arr xs) ∧
    ∀ c ∈ xs, ∃ fs, c = JVal.obj fs ∧
      (pyGet fs "name").isSome = true ∧ (pyGet fs "value").isSome = true

/-! ## Helper lemmas -/

theorem pyGet_cons (k0 : String) (v0 : JVal) (d : List (String × JVal)) (k : String) :
    pyGet ((k0, v0) :: d) k = if k0 == k then some v0 else pyGet d k := by
  simp only [pyGet, List.find?_cons]
  cases h : k0 == k <;> simp [h]

theorem pyGet_map_set_self (d : List (String × JVal)) (k : String) (v : JVal)
    (h : (d.find? (fun p => p.1 == k)).isSome = true) :
    pyGet (d.map (fun p => if p.1 == k then (k, v) else p)) k = some v := by
  induction d with
  | nil => simp [List.find?] at h
  | cons p d ih =>
    by_cases hp : p.1 == k
    · simp only [List.map_cons, hp, if_true]
      rw [pyGet_cons]
      simp
    · have hp' : (p.1 == k) = false := by simpa using hp
      simp only [List.map_cons, hp', Bool.false_eq_true, if_false]
      rw [pyGet_cons]
      simp only [hp', Bool.false_eq_true, if_false]
      apply ih
      simp only [List.find?_cons, hp'] at h
      exact h

theorem pyGet_map_set_ne (d : List (String × JVal)) (k : String) (v : JVal) (k' : String)
    (h : k' ≠ k) :
    pyGet (d.map (fun p => if p.1 == k then (k, v) else p)) k' = pyGet d k' := by
  induction d with
  | nil => rfl
  | cons p d ih =>
    by_cases hp : (p.1 == k) = true
    · simp only [List.map_cons, hp, if_true]
      rw [pyGet_cons, pyGet_cons, ih]
      have hk : (k == k') = false := by
        simp only [beq_eq_false_iff_ne]
        exact fun hkk => h hkk.symm
      have hpk : p.1 = k := by simpa using hp
      have hp' : (p.1 == k') = false := by
        simp only [beq_eq_false_iff_ne, hpk]
        exact fun hkk => h hkk.symm
      simp [hk, hp']
    · have hp' : (p.1 == k) = false := by simpa using hp
      simp only [List.map_cons, hp', Bool.false_eq_true, if_false]
      rw [pyGet_cons, pyGet_cons, ih]

theorem pyGet_append_single_ne (d : List (String × JVal)) (k : String) (v : JVal) (k' : String)
    (h : k' ≠ k) :
    pyGet (d ++ [(k, v)]) k' = pyGet d k' := by
  induction d with
  | nil =>
    simp only [List.nil_append]
    rw [pyGet_cons]
    have hk : (k == k') = false := by
      simp only [beq_eq_false_iff_ne]
      exact fun hkk => h hkk.symm
    simp [hk, pyGet]
  | cons p d ih =>
    simp only [List.cons_append]
    rw [pyGet_cons, pyGet_cons]
    cases hq : p.1 == k' <;> simp [hq, ih]

theorem pyGet_append_single_self (d : List (String × JVal)) (k : String) (v : JVal)
    (h : pyGet d k = none) : pyGet (d ++ [(k, v)]) k = some v := by
  induction d with
  | nil =>
    rw [List.nil_append, pyGet_cons]
    simp
  | cons p d ih =>
    rw [List.cons_append, pyGet_cons]
    rw [pyGet_cons] at h
    by_cases hp : (p.1 == k) = true
    · simp only [hp, if_true] at h
      cases h
    · have hp' : (p.1 == k) = false := by simpa using hp
      simp only [hp', Bool.false_eq_true, if_false] at h ⊢
      exact ih h

theorem pyGet_pyDictSet_self (d : List (String × JVal)) (k : String) (v : JVal) :
    pyGet (pyDictSet d k v) k = some v := by
  unfold pyDictSet
  by_cases h : (d.find? (fun p => p.1 == k)).isSome = true
  · rw [if_pos h]
    exact pyGet_map_set_self d k v h
  · rw [if_neg h]
    have h' : d.find? (fun p => p.1 == k) = none := by
      cases hf : d.find? (fun p => p.1 == k) with
      | none => rfl
      | some x => rw [hf] at h; simp at h
    exact pyGet_append_single_self d k v (by simp [pyGet, h'])

theorem pyGet_pyDictSet_ne (d : List (String × JVal)) (k : String) (v : JVal) (k' : String)
    (h : k' ≠ k) :
    pyGet (pyDictSet d k v) k' = pyGet d k' := by
  unfold pyDictSet
  by_cases hf : (d.find? (fun p => p.1 == k)).isSome = true
  · simp only [hf, if_true]
    exact pyGet_map_set_ne d k v k' h
  · simp only [hf, if_false]
    exact pyGet_append_single_ne d k v k' h

theorem pyDictSet_keys_of_mem (d : List (String × JVal)) (k : String) (v : JVal)
    (h : k ∈ d.map Prod.fst) :
    (pyDictSet d k v).map Prod.fst = d.map Prod.fst := by
  obtain ⟨p, hp, hpk⟩ := List.mem_map.mp h
  have hfind : (d.find? (fun p => p.1 == k)).isSome = true := by
    rw [List.find?_isSome]
    exact ⟨p, hp, by simp [hpk]⟩
  unfold pyDictSet
  rw [if_pos hfind, List.map_map]
  apply List.map_congr_left
  intro q hq
  simp only [Function.comp_apply]
  by_cases hqk : q.1 = k
  · simp [hqk]
  · have hq' : (q.1 == k) = false := by simpa using hqk
    simp [hq']

theorem pyGet_pyDictUpdate_not_mem :
    ∀ (u d : List (String × JVal)) (k : String), k ∉ u.map Prod.fst →
      pyGet (pyDictUpdate d u) k = pyGet d k := by
  intro u
  induction u with
  | nil => intro d k _; rfl
  | cons p u ih =>
    intro d k hk
    simp only [List.map_cons, List.mem_cons, not_or] at hk
    show pyGet (pyDictUpdate (pyDictSet d p.1 p.2) u) k = pyGet d k
    rw [ih (pyDictSet d p.1 p.2) k hk.2]
    exact pyGet_pyDictSet_ne d p.1 p.2 k hk.1

theorem pyGet_pyDictUpdate_mem :
    ∀ (u d : List (String × JVal)) (k : String) (v : JVal), (u.map Prod.fst).Nodup →
      (k, v) ∈ u → pyGet (pyDictUpdate d u) k = some v := by
  intro u
  induction u with
  | nil => intro d k v _ hm; cases hm
  | cons p u ih =>
    intro d k v hnd hm
    simp only [List.map_cons, List.nodup_cons] at hnd
    rcases List.mem_cons.mp hm with heq | htail
    · subst heq
      show pyGet (pyDictUpdate (pyDictSet d k v) u) k = some v
      rw [pyGet_pyDictUpdate_not_mem u (pyDictSet d k v) k hnd.1]
      exact pyGet_pyDictSet_self d k v
    · exact ih (pyDictSet d p.1 p.2) k v hnd.2 htail

theorem pyDictUpdate_keys :
    ∀ (u d : List (String × JVal)), (∀ p ∈ u, p.1 ∈ d.map Prod.fst) →
      (pyDictUpdate d u).map Prod.fst = d.map Prod.fst := by
  intro u
  induction u with
  | nil => intro d _; rfl
  | cons p u ih =>
    intro d h
    have hset : (pyDictSet d p.1 p.2).map Prod.fst = d.map Prod.fst :=
      pyDictSet_keys_of_mem d p.1 p.2 (h p (List.mem_cons_self p u))
    show (pyDictUpdate (pyDictSet d p.1 p.2) u).map Prod.fst = d.map Prod.fst
    rw [ih (pyDictSet d p.1 p.2) (fun q hq => by
      rw [hset]; exact h q (List.mem_cons_of_mem p hq))]
    exact hset

theorem keyedFilterMap_keys (g : String → Option JVal) :
    ∀ (l : List String),
      (l.filterMap (fun k => (g k).map (fun v => (k, v)))).map Prod.fst
        = l.filter (fun k => (g k).isSome) := by
  intro l
  induction l with
  | nil => rfl
  | cons a l ih => cases h : g a <;> simp [List.filterMap_cons, List.filter_cons, h, ih]

theorem convert_extras_keys (body : List (String × JVal)) :
    (convert_extras body).map Prod.fst
      = appExtraKeys.filter (fun k => (pyGet body k).isSome) :=
  keyedFilterMap_keys (pyGet body) appExtraKeys

theorem convert_extras_mem (body : List (String × JVal)) (k : String) (v : JVal)
    (hk : k ∈ appExtraKeys) (hv : pyGet body k = some v) :
    (k, v) ∈ convert_extras body :=
  List.mem_filterMap.mpr ⟨k, hk, by simp [hv]⟩

theorem exceptMapM_ok {α β : Type} (f : α → Except PyErr β) :
    ∀ (xs : List α), (∀ c ∈ xs, ∃ y, f c = .ok y) → ∃ ys, xs.mapM f = .ok ys := by
  intro xs
  induction xs with
  | nil => intro _; exact ⟨[], rfl⟩
  | cons x xs ih =>
    intro h
    obtain ⟨y, hy⟩ := h x (List.mem_cons_self x xs)
    obtain ⟨ys, hys⟩ := ih (fun c hc => h c (List.mem_cons_of_mem x hc))
    exact ⟨y :: ys, by rw [List.mapM_cons, hy, hys]; rfl⟩

theorem chunkStream_flatten_le :
    ∀ (n : Nat) (l : List Char), l.length ≤ n → (chunkStream l).flatten = l
  | _, [], _ => by simp [chunkStream]
  | 0, a :: rest, h => by simp at h
  | Nat.succ n, a :: rest, h => by
    rw [chunkStream]
    simp only [List.flatten_cons]
    rw [chunkStream_flatten_le n ((a :: rest).drop 4096)
      (by simp only [List.length_drop]; simp at h ⊢; omega)]
    exact List.take_append_drop 4096 (a :: rest)

theorem chunkStream_flatten (l : List Char) : (chunkStream l).flatten = l :=
  chunkStream_flatten_le l.length l le_rfl

theorem dropWhile_eq_self_of {p : Char → Bool} :
    ∀ (l : List Char), (∀ c ∈ l, p c = false) → l.dropWhile p = l := by
  intro l h
  cases l with
  | nil => rfl
  | cons a l => simp [List.dropWhile_cons, h a (List.mem_cons_self a l)]

theorem pyOr_assoc (a b c : Option JVal) : pyOr (pyOr a b) c = pyOr a (pyOr b c) := by
  cases a with
  | none => simp [pyOr]
  | some v =>
    by_cases h : truthy v = true
    · simp [pyOr, h]
    · simp only [Bool.not_eq_true] at h
      simp [pyOr, h]

theorem orChain_cons2 (data : List (String × JVal)) (k k2 : String) (ks : List String) :
    orChain data (k :: k2 :: ks) = pyOr (pyGet data k) (orChain data (k2 :: ks)) := by
  cases h : pyGet data k <;> simp [orChain, pyOr, h]

theorem bearer_pyStartsWith (tok : String) :
    pyStartsWith (pyLower ("Bearer " ++ tok)) "bearer " = true := by
  simp +decide [pyStartsWith, pyLower, String.data_append]

theorem bearer_pySplitNone1 (tok : String) (hne : tok.data ≠ [])
    (hns : ∀ c ∈ tok.data, isPySpace c = false) :
    pySplitNone1 ("Bearer " ++ tok) = ["Bearer", tok] := by
  unfold pySplitNone1
  have hdata : ("Bearer " ++ tok).data
      = 'B' :: 'e' :: 'a' :: 'r' :: 'e' :: 'r' :: ' ' :: tok.data := by
    rw [String.data_append]
    rfl
  have hBf : isPySpace 'B' = false := rfl
  have hef : isPySpace 'e' = false := rfl
  have haf : isPySpace 'a' = false := rfl
  have hrf : isPySpace 'r' = false := rfl
  have hsp : isPySpace ' ' = true := rfl
  have hdrop : tok.data.dropWhile isPySpace = tok.data :=
    dropWhile_eq_self_of tok.data hns
  simp only [hdata, List.dropWhile_cons, List.takeWhile_cons, hBf, hef, haf, hrf, hsp,
    Bool.not_false, Bool.not_true, if_true, if_false, Bool.false_eq_true, ite_true, ite_false,
    hdrop]
  have hemp : tok.data.isEmpty = false := by
    cases h : tok.data with
    | nil => exact absurd h hne
    | cons a l => rfl
  simp [hemp]

theorem pyStrip_of_no_space (tok : String) (hns : ∀ c ∈ tok.data, isPySpace c = false) :
    pyStrip tok = tok := by
  unfold pyStrip
  rw [dropWhile_eq_self_of tok.data hns]
  rw [dropWhile_eq_self_of tok.data.reverse (fun c hc => hns c (List.mem_reverse.mp hc))]
  rw [List.reverse_reverse]

theorem random_ipv4_octets_spec :
    ∀ (draws : List Nat) (a b c d : Nat),
      random_ipv4_octets draws = some (a, b, c, d) →
      (a ∈ draws ∧ b ∈ draws ∧ c ∈ draws ∧ d ∈ draws) ∧ a ∉ excludedFirstOctets
  | [], a, b, c, d => by intro h; simp [random_ipv4_octets] at h
  | [x], a, b, c, d => by intro h; simp [random_ipv4_octets] at h
  | [x, y], a, b, c, d => by intro h; simp [random_ipv4_octets] at h
  | [x, y, z], a, b, c, d => by intro h; simp [random_ipv4_octets] at h
  | x :: y :: z :: w :: rest, a, b, c, d => by
    intro h
    by_cases hx : x ∈ excludedFirstOctets
    · rw [random_ipv4_octets, if_pos hx] at h
      obtain ⟨hmem, hex⟩ := random_ipv4_octets_spec rest a b c d h
      refine ⟨⟨?_, ?_, ?_, ?_⟩, hex⟩
      · simp [List.mem_cons, hmem.1]
      · simp [List.mem_cons, hmem.2.1]
      · simp [List.mem_cons, hmem.2.2.1]
      · simp [List.mem_cons, hmem.2.2.2]
    · rw [random_ipv4_octets, if_neg hx] at h
      have h' : x = a ∧ y = b ∧ z = c ∧ w = d := by simpa using h
      obtain ⟨rfl, rfl, rfl, rfl⟩ := h'
      exact ⟨⟨by simp, by simp, by simp, by simp⟩, hx⟩

theorem token_app_eq_orChain (data : List (String × JVal)) :
    token_app data = orChain data appTokenKeys := by
  unfold token_app appTokenKeys
  rw [orChain_cons2, orChain_cons2]
  rw [pyOr_assoc]
  rfl

theorem token_edited_eq_orChain (data : List (String × JVal)) :
    token_edited data = orChain data editedTokenKeys := by
  unfold token_edited editedTokenKeys
  rw [orChain_cons2, orChain_cons2, orChain_cons2, orChain_cons2]
  simp only [pyOr_assoc]
  rfl

theorem app_cookie_str_ok (data : List (String × JVal))
    (hwf : WellFormedCookiesField (pyGet data "cookies")) :
    ∃ cs, app_cookie_str data = Except.ok cs := by
  rcases hwf with hnone | ⟨xs, hxs, hwfxs⟩
  · exact ⟨"", by simp [app_cookie_str, pyGetD, hnone, truthy]; rfl⟩
  · cases xs with
    | nil => exact ⟨"", by simp [app_cookie_str, pyGetD, hxs, truthy]; rfl⟩
    | cons y ys =>
      have hmap : ∃ rs, (y :: ys).mapM (fun c => do
          let n ← pySubscript c "name"
          let v ← pySubscript c "value"
          pure (pyStr n ++ "=" ++ pyStr v)) = Except.ok rs := by
        apply exceptMapM_ok
        intro c hc
        obtain ⟨fs, hfs, hn, hv⟩ := hwfxs c hc
        obtain ⟨n, hn'⟩ := Option.isSome_iff_exists.mp hn
        obtain ⟨v, hv'⟩ := Option.isSome_iff_exists.mp hv
        exact ⟨pyStr n ++ "=" ++ pyStr v, by simp [hfs, pySubscript, hn', hv']; rfl⟩
      obtain ⟨rs, hrs⟩ := hmap
      refine ⟨String.intercalate "; " rs, ?_⟩
      unfold app_cookie_str
      simp only [pyGetD, hxs, Option.getD_some]
      rw [if_pos (by rfl : truthy (JVal.arr (y :: ys)) = true)]
      show Except.bind (pyIter (JVal.arr (y :: ys))) _ = _
      rw [show pyIter (JVal.arr (y :: ys)) = Except.ok (y :: ys) from rfl]
      show Except.bind ((y :: ys).mapM _) _ = _
      rw [hrs]
      rfl

theorem appExtraKeys_sub_default :
    ∀ k ∈ appExtraKeys, k ∈ DEFAULT_PAYLOAD.map Prod.fst := by decide

theorem convert_extras_key_mem (body : List (String × JVal)) (p : String × JVal)
    (hp : p ∈ convert_extras body) : p.1 ∈ appExtraKeys := by
  obtain ⟨k, hk, hfk⟩ := List.mem_filterMap.mp hp
  obtain ⟨v, _, hkv⟩ := Option.map_eq_some'.mp hfk
  rw [← hkv]
  exact hk

theorem convertPayload_eq (body : List (String × JVal)) (html : JVal) :
    convertPayload body html =
      if (convert_extras body).isEmpty = true then pyDictSet DEFAULT_PAYLOAD "html" html
      else pyDictUpdate (pyDictSet DEFAULT_PAYLOAD "html" html) (convert_extras body) := rfl

theorem convertPayload_keys (body : List (String × JVal)) (html : JVal) :
    (convertPayload body html).map Prod.fst = DEFAULT_PAYLOAD.map Prod.fst := by
  rw [convertPayload_eq]
  have hbk : (pyDictSet DEFAULT_PAYLOAD "html" html).map Prod.fst
      = DEFAULT_PAYLOAD.map Prod.fst :=
    pyDictSet_keys_of_mem DEFAULT_PAYLOAD "html" html (by decide)
  by_cases he : (convert_extras body).isEmpty = true
  · rw [if_pos he]
    exact hbk
  · rw [if_neg he]
    rw [pyDictUpdate_keys (convert_extras body) (pyDictSet DEFAULT_PAYLOAD "html" html)
      (fun p hp => by
        rw [hbk]
        exact appExtraKeys_sub_default p.1 (convert_extras_key_mem body p hp))]
    exact hbk

theorem convert_extras_nodup (body : List (String × JVal)) :
    ((convert_extras body).map Prod.fst).Nodup := by
  rw [convert_extras_keys]
  exact (by decide : appExtraKeys.Nodup).filter _

theorem convertPayload_value (body : List (String × JVal)) (html : JVal) (k : String) (v : JVal)
    (hk : k ∈ appExtraKeys) (hv : pyGet body k = some v) :
    pyGet (convertPayload body html) k = some v := by
  have hmem : (k, v) ∈ convert_extras body := convert_extras_mem body k v hk hv
  have hne : (convert_extras body).isEmpty = false := by
    cases hcc : convert_extras body with
    | nil => rw [hcc] at hmem; cases hmem
    | cons a l => rfl
  rw [convertPayload_eq]
  rw [if_neg (by simp [hne])]
  exact pyGet_pyDictUpdate_mem (convert_extras body) _ k v (convert_extras_nodup body) hmem

theorem convertPayload_html (body : List (String × JVal)) (html : JVal) :
    pyGet (convertPayload body html) "html" = some html := by
  rw [convertPayload_eq]
  by_cases he : (convert_extras body).isEmpty = true
  · rw [if_pos he]
    exact pyGet_pyDictSet_self DEFAULT_PAYLOAD "html" html
  · rw [if_neg he]
    rw [pyGet_pyDictUpdate_not_mem (convert_extras body) _ "html" (by
      rw [convert_extras_keys]
      intro hmem
      have h2 := (List.mem_filter.mp hmem).1
      revert h2
      decide)]
    exact pyGet_pyDictSet_self DEFAULT_PAYLOAD "html" html

/-! ## Claim C1 -/

/-- Claim C1, counterexample: for the caller body containing only
`html`, the forwarded payload of `app.py` contains the key `selector`
(from the template defaults) and the forwarded payload of
`edited-app.py` contains the key `css`, although neither key was
caller-supplied — so the payload is not exactly `html` plus the
intersection of caller keys with the allow-list. -/
theorem c1_counterexample :
    ("selector" ∈ (convertPayload [("html", JVal.str "x")] (JVal.str "x")).map Prod.fst
      ∧ "selector" ∉ ([("html", JVal.str "x")] : List (String × JVal)).map Prod.fst)
    ∧ ("css" ∈ (forward_payload [("html", JVal.str "x")] (JVal.str "x")).map Prod.fst
      ∧ "css" ∉ ([("html", JVal.str "x")] : List (String × JVal)).map Prod.fst) := by
  decide

/-- Claim C1, amended: the forwarded payload's key set is a fixed
template (the `DEFAULT_PAYLOAD` keys in `app.py`, the eleven literal
keys in `edited-app.py`), independent of the caller's keys; every
payload key is `html` or an allow-listed key, so no caller key outside
the allow-list is ever forwarded; `html` carries the caller's html and
every caller-supplied allow-listed key overrides the default. -/
theorem c1_payload_fixed_template (body : List (String × JVal)) (html : JVal) :
    (convertPayload body html).map Prod.fst = DEFAULT_PAYLOAD.map Prod.fst
    ∧ (∀ k, k ∈ (convertPayload body html).map Prod.fst → k = "html" ∨ k ∈ specAllowList)
    ∧ pyGet (convertPayload body html) "html" = some html
    ∧ (∀ k v, k ∈ appExtraKeys → pyGet body k = some v →
        pyGet (convertPayload body html) k = some v)
    ∧ (forward_payload body html).map Prod.fst = editedPayloadKeys
    ∧ (∀ k, k ∈ editedPayloadKeys → k = "html" ∨ k ∈ specAllowList) := by
  refine ⟨convertPayload_keys body html, ?_, convertPayload_html body html,
    fun k v hk hv => convertPayload_value body html k v hk hv, rfl, ?_⟩
  · intro k hk
    rw [convertPayload_keys body html] at hk
    have hd : DEFAULT_PAYLOAD.map Prod.fst
        = ["html", "selector", "full_screen", "render_when_ready", "color_scheme",
           "timezone", "block_consent_banners"] := rfl
    rw [hd] at hk
    simp only [List.mem_cons, List.not_mem_nil, or_false] at hk
    rcases hk with rfl | rfl | rfl | rfl | rfl | rfl | rfl <;> decide
  · intro k hk
    simp only [editedPayloadKeys, List.mem_cons, List.not_mem_nil, or_false] at hk
    rcases hk with rfl | rfl | rfl | rfl | rfl | rfl | rfl | rfl | rfl | rfl | rfl <;> decide

/-- Claim C1, witness: a caller-supplied allow-listed key (`selector`)
reaches the forwarded payload with the caller's value. -/
theorem c1_witness :
    pyGet (convertPayload
      [("html", JVal.str "x"), ("selector", JVal.str "#id"), ("evil", JVal.str "z")]
      (JVal.str "x")) "selector" = some (JVal.str "#id") :=
  (c1_payload_fixed_template
    [("html", JVal.str "x"), ("selector", JVal.str "#id"), ("evil", JVal.str "z")]
    (JVal.str "x")).2.2.2.1 "selector" (JVal.str "#id") (by decide) rfl

/-! ## Claim C2 -/

/-- Claim C2, counterexample: a status body whose only token-like key
is `request_verification_token` should, per the claim, yield that
key's value; both sources yield no token for it. -/
theorem c2_counterexample :
    specTokenExtract [("request_verification_token", JVal.str "T")] = some (JVal.str "T")
    ∧ token_app [("request_verification_token", JVal.str "T")] = none
    ∧ token_edited [("request_verification_token", JVal.str "T")] = none :=
  ⟨rfl, rfl, rfl⟩

/-- Claim C2, amended: `app.py` tries, in order, exactly
`requestVerificationToken`, `__RequestVerificationToken`,
`RequestVerificationToken`; `edited-app.py` tries, in order, exactly
`requestVerificationToken`, `requestverificationtoken`,
`RequestVerificationToken`, `__RequestVerificationToken`, `token`;
neither implements the `request_verification_token` key or the
case-insensitive substring fallback; a body whose only token key is
`RequestVerificationToken` (truthy value) yields that key's value in
both. -/
theorem c2_token_fallback_order :
    (∀ data, token_app data = orChain data appTokenKeys)
    ∧ (∀ data, token_edited data = orChain data editedTokenKeys)
    ∧ (∀ (data : List (String × JVal)) (v : JVal),
        pyGet data "requestVerificationToken" = none →
        pyGet data "requestverificationtoken" = none →
        pyGet data "__RequestVerificationToken" = none →
        pyGet data "RequestVerificationToken" = some v →
        truthy v = true →
        token_app data = some v ∧ token_edited data = some v) := by
  refine ⟨token_app_eq_orChain, token_edited_eq_orChain, ?_⟩
  intro data v h1 h2 h3 h4 ht
  constructor
  · simp [token_app, pyOr, h1, h3, h4, ht]
  · simp [token_edited, pyOr, h1, h2, h3, h4, ht]

/-- Claim C2, witness: a body whose only token key is the capital
variant `RequestVerificationToken` yields its value in both sources. -/
theorem c2_witness :
    token_app [("RequestVerificationToken", JVal.str "T")] = some (JVal.str "T")
    ∧ token_edited [("RequestVerificationToken", JVal.str "T")] = some (JVal.str "T") :=
  c2_token_fallback_order.2.2 [("RequestVerificationToken", JVal.str "T")]
    (JVal.str "T") rfl rfl rfl rfl rfl

/-! ## Claim C3 -/

/-- Claim C3, counterexample: an upstream `Connection` header — a
member of the claimed hop-by-hop set — is relayed unchanged, because
the code filters only `content-encoding` and `transfer-encoding`. -/
theorem c3_counterexample :
    relay_headers [("Connection", "keep-alive")] = [("Connection", "keep-alive")]
    ∧ pyLower "Connection" ∈ specHopByHop := by
  decide

/-- Claim C3, amended: the relayed header set excludes exactly the
headers named (case-insensitively) `content-encoding` or
`transfer-encoding`, and every other upstream header is copied
through. -/
theorem c3_relay_filters_two_headers :
    (∀ (hs : List (String × String)), ∀ p ∈ relay_headers hs,
      pyLower p.1 ≠ "content-encoding" ∧ pyLower p.1 ≠ "transfer-encoding")
    ∧ (∀ (hs : List (String × String)), ∀ p ∈ hs,
      pyLower p.1 ≠ "content-encoding" → pyLower p.1 ≠ "transfer-encoding" →
      p ∈ relay_headers hs) := by
  constructor
  · intro hs p hp
    have hcond := (List.mem_filter.mp hp).2
    constructor <;> intro heq <;> simp [heq] at hcond
  · intro hs p hp h1 h2
    apply List.mem_filter.mpr
    refine ⟨hp, ?_⟩
    have h1' : (pyLower p.1 == "content-encoding") = false := by simpa using h1
    have h2' : (pyLower p.1 == "transfer-encoding") = false := by simpa using h2
    simp [h1', h2']

/-- Claim C3, witness: an ordinary header passes through the relay
filter. -/
theorem c3_witness :
    ("Content-Type", "image/png") ∈ relay_headers [("Content-Type", "image/png")] :=
  c3_relay_filters_two_headers.2 [("Content-Type", "image/png")]
    ("Content-Type", "image/png") (by decide) (by decide) (by decide)

/-! ## Claim C4 -/

/-- Claim C4, counterexample: for an upstream render response with
status 404 and non-image content type, `app.py` does not relay the
body and status verbatim: `raise_for_status()` raises and the caller
receives a 502 JSON error instead of the upstream's own 404. -/
theorem c4_counterexample :
    pyStartsWith (AppUpstream.mk 404 "text/html" "nope" none).contentType "image/" = false
    ∧ (convert_outcome (AppUpstream.mk 404 "text/html" "nope" none)).1 = 502
    ∧ (AppUpstream.mk 404 "text/html" "nope" none).statusCode = 404 := by
  decide

/-- Claim C4, amended: in `edited-app.py` every upstream response —
non-image, non-success included — is relayed verbatim: the caller
receives the upstream's own status code and the streamed chunks
reassemble exactly the upstream body (and no diagnostic capture
intervenes, since none exists there); in `app.py`, by contrast, a
non-success upstream response is converted to a 502 JSON error, so the
body and status are not relayed. -/
theorem c4_relay_verbatim :
    (∀ u : Upstream,
      (relay_response u).1 = u.status ∧ (relay_response u).2.2.flatten = u.body)
    ∧ (∀ resp : AppUpstream, 400 ≤ resp.statusCode → resp.statusCode < 600 →
        convert_outcome resp = (502, "Remote service HTTP error")) := by
  constructor
  · intro u
    exact ⟨rfl, chunkStream_flatten u.body⟩
  · intro resp h1 h2
    unfold convert_outcome call_image_api_response
    rw [if_pos ⟨h1, h2⟩]

/-- Claim C4, witness: a concrete 500 upstream response is mapped by
`app.py` to a 502 caller error. -/
theorem c4_witness :
    convert_outcome (AppUpstream.mk 500 "application/json" "oops" (some (JVal.obj [])))
      = (502, "Remote service HTTP error") :=
  c4_relay_verbatim.2 (AppUpstream.mk 500 "application/json" "oops" (some (JVal.obj [])))
    (by decide) (by decide)

/-! ## Claim C5 -/

/-- Claim C5 (confirmed): under the strict credential policy
(`edited-app.py`), for every `/convert` request that passed the
API-key and `html` checks, a status-fetch failure makes the handler
abort with 502 and the render POST is never issued. -/
theorem c5_strict_status_failure_no_post (data : List (String × JVal)) (html : JVal)
    (hhtml : pyGet data "html" = some html) (ht : truthy html = true) :
    render_html INTERNAL_API_KEY data FetchOutcome.failure
      = Except.ok (HandlerStep.aborted 502)
    ∧ ∀ p cs t, render_html INTERNAL_API_KEY data FetchOutcome.failure
        ≠ Except.ok (HandlerStep.posted p cs t) := by
  have hmain : render_html INTERNAL_API_KEY data FetchOutcome.failure
      = Except.ok (HandlerStep.aborted 502) := by
    unfold render_html
    rw [if_neg (fun hcon => hcon rfl)]
    rw [hhtml]
    dsimp only
    rw [if_neg (by simp [ht])]
    rfl
  refine ⟨hmain, fun p cs t hcontra => ?_⟩
  rw [hmain] at hcontra
  simp at hcontra

/-- Claim C5, witness: a concrete well-formed request aborts with 502
on status-fetch failure. -/
theorem c5_witness :
    render_html INTERNAL_API_KEY [("html", JVal.str "<h1>hi</h1>")] FetchOutcome.failure
      = Except.ok (HandlerStep.aborted 502) :=
  (c5_strict_status_failure_no_post [("html", JVal.str "<h1>hi</h1>")]
    (JVal.str "<h1>hi</h1>") rfl rfl).1

/-! ## Claim C6 -/

/-- Claim C6 (confirmed): for every status body of the documented shape
whose HTTP call succeeded, the `fetch_status` parsing step of `app.py`
returns a credentials value instead of raising; an empty `cookies`
array yields the empty cookie string, and when none of the tried token
keys is present the token is `none` — absence is represented, not
raised. -/
theorem c6_absence_represented_not_raised (data : List (String × JVal))
    (hwf : WellFormedCookiesField (pyGet data "cookies")) :
    (∃ cs, fetch_status data = Except.ok (cs, token_app data))
    ∧ (pyGet data "cookies" = some (JVal.arr []) →
        fetch_status data = Except.ok ("", token_app data))
    ∧ ((pyGet data "requestVerificationToken" = none
        ∧ pyGet data "__RequestVerificationToken" = none
        ∧ pyGet data "RequestVerificationToken" = none) → token_app data = none) := by
  refine ⟨?_, ?_, ?_⟩
  · obtain ⟨cs, hcs⟩ := app_cookie_str_ok data hwf
    refine ⟨cs, ?_⟩
    unfold fetch_status
    rw [hcs]
    rfl
  · intro h
    have happ : app_cookie_str data = Except.ok "" := by
      simp [app_cookie_str, pyGetD, h, truthy]
      rfl
    unfold fetch_status
    rw [happ]
    rfl
  · rintro ⟨h1, h2, h3⟩
    simp [token_app, pyOr, h1, h2, h3]

/-- Claim C6, witness: the empty cookie array and absence of every
token key produce the empty cookie string and an absent token. -/
theorem c6_witness :
    fetch_status [("cookies", JVal.arr [])] = Except.ok ("", (none : Option JVal)) :=
  (c6_absence_represented_not_raised [("cookies", JVal.arr [])]
    (Or.inr ⟨[], rfl, by simp⟩)).2.1 rfl

/-! ## Claim C7 -/

/-- Claim C7 (confirmed): every address the spoofed-forwarded-for
generator returns is a dotted quad of four octets drawn by
`random.randint(1, 254)` — hence each in `[1, 254]` — whose first
octet is never 10, 127, 169, 172 or 192. -/
theorem c7_forwarded_for_public (draws : List Nat)
    (hr : ∀ x ∈ draws, 1 ≤ x ∧ x ≤ 254) (ip : String)
    (hip : random_ipv4_public draws = some ip) :
    ∃ a b c d, ip = ipJoin a b c d
      ∧ (1 ≤ a ∧ a ≤ 254) ∧ (1 ≤ b ∧ b ≤ 254) ∧ (1 ≤ c ∧ c ≤ 254) ∧ (1 ≤ d ∧ d ≤ 254)
      ∧ a ∉ excludedFirstOctets := by
  unfold random_ipv4_public at hip
  cases hq : random_ipv4_octets draws with
  | none => rw [hq] at hip; cases hip
  | some q =>
    rw [hq] at hip
    obtain ⟨a, b, c, d⟩ := q
    simp only [Option.map_some', Option.some.injEq] at hip
    obtain ⟨hmem, hex⟩ := random_ipv4_octets_spec draws a b c d hq
    exact ⟨a, b, c, d, hip.symm, hr a hmem.1, hr b hmem.2.1, hr c hmem.2.2.1,
      hr d hmem.2.2.2, hex⟩

/-- Claim C7, witness: the generator run on a concrete draw stream
(first attempt rejected for first octet 10) yields `55.6.7.8`, which
satisfies the dotted-quad and range properties. -/
theorem c7_witness :
    ∃ a b c d, ipJoin 55 6 7 8 = ipJoin a b c d
      ∧ (1 ≤ a ∧ a ≤ 254) ∧ (1 ≤ b ∧ b ≤ 254) ∧ (1 ≤ c ∧ c ≤ 254) ∧ (1 ≤ d ∧ d ≤ 254)
      ∧ a ∉ excludedFirstOctets :=
  c7_forwarded_for_public [10, 2, 3, 4, 55, 6, 7, 8] (by decide) (ipJoin 55 6 7 8) rfl

/-! ## Claim C8 -/

/-- Claim C8 (confirmed): client-hint derivation is deterministic —
`generate_ch_ua_from_ua` is a pure function of the user-agent string,
so any two derivations from the same string coincide. -/
theorem c8_client_hints_deterministic (ua : String) (o1 o2 : String × String × String)
    (h1 : o1 = generate_ch_ua_from_ua ua) (h2 : o2 = generate_ch_ua_from_ua ua) :
    o1 = o2 := by
  rw [h1, h2]

/-- Claim C8, witness: two derivations from the pooled Chrome
user-agent string coincide. -/
theorem c8_witness :
    generate_ch_ua_from_ua "Mozilla/5.0 (Windows NT 10.0; Win64; x64) AppleWebKit/537.36 (KHTML, like Gecko) Chrome/121.0.0.0 Safari/537.36"
      = generate_ch_ua_from_ua "Mozilla/5.0 (Windows NT 10.0; Win64; x64) AppleWebKit/537.36 (KHTML, like Gecko) Chrome/121.0.0.0 Safari/537.36" :=
  c8_client_hints_deterministic
    "Mozilla/5.0 (Windows NT 10.0; Win64; x64) AppleWebKit/537.36 (KHTML, like Gecko) Chrome/121.0.0.0 Safari/537.36"
    _ _ rfl rfl

/-! ## Claim C9 -/

/-- Claim C9 (confirmed): whenever the Authorization header value
starts (case-insensitively) with `"bearer "`, the bearer value
replaces any `X-API-KEY` header in `app.py`'s key check: the outcome
depends only on the bearer token — acceptance exactly when it equals
the configured key — so a correct `X-API-KEY` with a mismatching
bearer token is rejected with 401, while a correct bearer token alone
is accepted.  (The token is assumed nonempty and whitespace-free, as
real keys are; `split(None, 1)` would otherwise raise or retokenise.) -/
theorem c9_bearer_overrides_xapikey (apiKey : String) (xApiKey : Option String) (tok : String)
    (hkey : apiKey ≠ "") (hne : tok.data ≠ [])
    (hns : ∀ c ∈ tok.data, isPySpace c = false) :
    require_api_key apiKey xApiKey (some ("Bearer " ++ tok))
      = Except.ok (if tok = apiKey then AuthResult.accepted else AuthResult.rejected401) := by
  have hstart := bearer_pyStartsWith tok
  have hsplit := bearer_pySplitNone1 tok hne hns
  have hstrip := pyStrip_of_no_space tok hns
  unfold require_api_key
  simp only [Option.getD_some, hstart, if_true, hsplit, hstrip, pure_bind]
  by_cases heq : tok = apiKey
  · rw [if_neg (by simp [heq, hkey])]
    simp only [heq, if_true]
    rfl
  · rw [if_pos (Or.inr heq)]
    simp only [heq, if_false]
    rfl

/-- Claim C9, witness: with the configured key, a correct `X-API-KEY`
plus a mismatching bearer token is rejected, and a correct bearer
token with no `X-API-KEY` is accepted. -/
theorem c9_witness :
    require_api_key API_KEY (some API_KEY) (some ("Bearer " ++ "WRONG"))
      = Except.ok AuthResult.rejected401
    ∧ require_api_key API_KEY none (some ("Bearer " ++ "OTTONRENT"))
      = Except.ok AuthResult.accepted := by
  constructor
  · have h := c9_bearer_overrides_xapikey API_KEY (some API_KEY) "WRONG"
      (by decide) (by decide) (by decide)
    rw [h, if_neg (by decide)]
  · have h := c9_bearer_overrides_xapikey API_KEY none "OTTONRENT"
      (by decide) (by decide) (by decide)
    rw [h, if_pos (by decide)]

/-! ## Claim C10 -/

/-- Claim C10, counterexample: cookie-string assembly is not total over
arbitrary status JSON — a truthy non-iterable `cookies` value (the
number 5) raises `TypeError` when the generator iterates it. -/
theorem c10_counterexample :
    build_cookie_str [("cookies", JVal.num 5)] = Except.error PyErr.typeError :=
  rfl

/-- Claim C10, amended: whenever the `cookies` value is a JSON array
(of arbitrary elements) the assembly returns a string without raising,
and every entry that is not a dict containing both a `name` and a
`value` key is silently skipped; an absent `cookies` key yields the
empty string; only a truthy non-iterable `cookies` value (a number or
boolean) makes the assembly raise. -/
theorem c10_cookie_assembly_total_on_arrays :
    (∀ (sj : List (String × JVal)) (xs : List JVal),
      pyGet sj "cookies" = some (JVal.arr xs) →
      build_cookie_str sj = Except.ok (assembleCookies xs))
    ∧ (∀ sj : List (String × JVal), pyGet sj "cookies" = none →
      build_cookie_str sj = Except.ok "")
    ∧ (∀ (c : JVal) (xs : List JVal), cookieNameValue c = none →
      assembleCookies (c :: xs) = assembleCookies xs) := by
  refine ⟨?_, ?_, ?_⟩
  · intro sj xs h
    unfold build_cookie_str
    simp only [pyGetD, h, Option.getD_some]
    cases xs with
    | nil => rfl
    | cons y ys => rfl
  · intro sj h
    unfold build_cookie_str
    simp only [pyGetD, h, Option.getD_none]
    rfl
  · intro c xs h
    unfold assembleCookies
    simp [List.filterMap_cons, h]

/-- Claim C10, witness: a malformed entry is skipped and a well-formed
entry is rendered, without an exception. -/
theorem c10_witness :
    build_cookie_str
      [("cookies", JVal.arr
        [JVal.str "bad", JVal.obj [("name", JVal.str "a"), ("value", JVal.str "b")]])]
      = Except.ok "a=b" :=
  c10_cookie_assembly_total_on_arrays.1
    [("cookies", JVal.arr
      [JVal.str "bad", JVal.obj [("name", JVal.str "a"), ("value", JVal.str "b")]])]
    [JVal.str "bad", JVal.obj [("name", JVal.str "a"), ("value", JVal.str "b")]] rfl
